import Mathlib

/-!
Verification of the flask_injector adapter (src/flask_injector.py) against its
specification. We shallowly embed the two components the claims are about:

* the request-scoped object cache (class RequestScope: reset / configure / get),
* the handler-adapter machinery (wrap_fun, and the functions w / process_dict /
  preconfigure_app / postconfigure_app).

Python dicts keyed by binding keys are embedded as total functions into Option;
a provider factory (the object whose .get() RequestScope.get invokes on a miss)
is embedded as a function from an invocation counter, so that each invocation
may yield a different instance or raise; the counter is threaded through get and
counts exactly the factory invocations the code performs. Exceptions are
embedded with Except. External collaborators (Flask request dispatch, werkzeug
Local internals, the injector's resolution machinery) are abstracted as
parameters, exactly as the code consumes them.
-/

namespace FlaskInjector

/-- Embedding of injector.InstanceProvider: a provider wrapping an
already-computed value; its get() is a pure projection, so it never recomputes. -/
structure InstanceProvider (V : Type) where
  value : V
deriving Repr, DecidableEq

/-- InstanceProvider.get returns the stored value (no recomputation). -/
def InstanceProvider.get {V : Type} (p : InstanceProvider V) : V :=
  p.value

/-- The contents of the werkzeug Local used by RequestScope for one request
context: the attribute named scope, a dict from binding keys to cached
providers (embedded as a total function into Option). -/
structure ScopeLocals (K V : Type) where
  scope : K → Option (InstanceProvider V)

namespace RequestScope

/-- Embedding of RequestScope.reset: self._local_manager.cleanup() releases the
context-local slot (external effect) and self._locals.scope = \x7b\x7d replaces the
store with an empty mapping. -/
def reset {K V : Type} (st : ScopeLocals K V) : ScopeLocals K V :=
  { scope := fun _ => none }

/-- A freshly created werkzeug Local() before any attribute is set: no cached
entries exist in any context. -/
def freshLocals {K V : Type} : ScopeLocals K V :=
  { scope := fun _ => none }

/-- Embedding of RequestScope.configure: allocate fresh locals (and a
LocalManager over them, external) and call reset. -/
def configure {K V : Type} : ScopeLocals K V :=
  reset freshLocals

/-- Embedding of RequestScope.get. The provider argument's .get() is embedded
as f applied to the invocation counter n, which increments exactly when the
code invokes the factory. On a hit the cached provider is returned and the
factory is not consulted. On a miss, provider.get() runs first: if it raises,
the exception propagates and the store assignment never executes (the store
is returned unchanged); if it yields v, the value is wrapped as
InstanceProvider(v), stored under key, and returned. -/
def get {K V E : Type} [DecidableEq K] (st : ScopeLocals K V) (n : Nat)
    (f : Nat → Except E V) (key : K) :
    Except E (InstanceProvider V) × ScopeLocals K V × Nat :=
  match st.scope key with
  | some p => (Except.ok p, st, n)
  | none =>
    match f n with
    | Except.ok v =>
      (Except.ok { value := v },
       { scope := Function.update st.scope key (some { value := v }) }, n + 1)
    | Except.error e => (Except.error e, st, n + 1)

/-- The werkzeug Local gives each request context its own private ScopeLocals;
a RequestScope.get executed in context c reads and writes only component c of
the context-indexed family. -/
def getCtx {Ctx K V E : Type} [DecidableEq Ctx] [DecidableEq K]
    (L : Ctx → ScopeLocals K V) (c : Ctx) (n : Nat)
    (f : Nat → Except E V) (key : K) :
    Except E (InstanceProvider V) × (Ctx → ScopeLocals K V) × Nat :=
  match get (L c) n f key with
  | (r, st, m) => (r, Function.update L c st, m)

end RequestScope

/-- A class-based view's class: invoking it with keyword values constructs a
view instance. Its initializer may carry bindings metadata (attached by the
injection decorator); flask_injector.py never inspects that attribute. -/
structure ViewClass (V R B : Type) where
  construct : (String → Option V) → R
  init_bindings : Option B

/-- What the view_class attribute of a view function can hold: originally the
view class itself; after postconfigure_app has processed the function, the cls
closure that asks the injector to construct whatever the attribute previously
held. -/
inductive ViewSlot (V R B : Type) where
  | cls (c : ViewClass V R B)
  | factory (s : ViewSlot V R B)

/-- The injector, as consumed by flask_injector.py: args_to_inject resolves a
handler's bindings metadata (given its owner key, the module name) to a dict of
keyword values, possibly raising; create_object constructs an instance of a
class, merging additional keyword values. Both are external to this repo. -/
structure Injector (V R Err B : Type) where
  args_to_inject : Option B → String → Except Err (String → Option V)
  create_object : ViewSlot V R B → (String → Option V) → R

/-- Calling whatever sits in a view_class slot: the original class runs its
constructor; the cls closure installed by postconfigure_app asks the injector
to construct the previously stored class with the call-time keyword values. -/
def ViewSlot.call {V R Err B : Type} (inj : Injector V R Err B) :
    ViewSlot V R B → (String → Option V) → R
  | ViewSlot.cls c, kw => c.construct kw
  | ViewSlot.factory s, kw => inj.create_object s kw

/-- A Python callable as flask_injector.py sees it: its behavior when invoked
with positional and keyword arguments (possibly raising), plus the attributes
the adapter probes with hasattr: an optional bindings metadata attribute, an
optional view_class attribute, and the module name passed to the injector. -/
structure Callable (A V R Err B : Type) where
  run : List A → (String → Option V) → Except Err R
  bindings : Option B
  view_class : Option (ViewSlot V R B)
  module : String

/-- Embedding of the Python expression dict(injections, kwargs-expanded): a
dict built from injections then updated by kwargs, so on a key collision the
kwargs entry wins. -/
def dictUpdate {V : Type} (d kw : String → Option V) : String → Option V :=
  fun name =>
    match kw name with
    | some v => some v
    | none => d name

/-- Embedding of wrap_fun: the returned wrapper, on each invocation, asks the
injector to resolve the wrapped function's bindings metadata (owner key: its
module), merges the resolved values with the caller's keyword arguments with
the caller's winning on collision, and invokes the original function on the
unchanged positional arguments and the merged keywords, passing its result (or
exception) through unchanged. If resolution raises, the exception propagates
and the original function is not invoked. functools.wraps copies the original
function's metadata and attributes onto the wrapper; the debug print is an
external side effect not modelled. -/
def wrap_fun {A V R Err B : Type} (fn : Callable A V R Err B)
    (injector : Injector V R Err B) : Callable A V R Err B :=
  { fn with
    run := fun args kwargs =>
      match injector.args_to_inject fn.bindings fn.module with
      | Except.ok injections => fn.run args (dictUpdate injections kwargs)
      | Except.error e => Except.error e }

/-- Embedding of the local function w in postconfigure_app: if the callable has
a bindings attribute, replace it with its wrap_fun wrapper; else if it has a
view_class attribute, replace that attribute with the cls closure (keeping the
same callable); else return it unchanged. Only the presence of the attributes
is inspected; no binding is resolved here. -/
def w {A V R Err B : Type} (injector : Injector V R Err B)
    (fn : Callable A V R Err B) : Callable A V R Err B :=
  match fn.bindings with
  | some _ => wrap_fun fn injector
  | none =>
    match fn.view_class with
    | some s => { fn with view_class := some (ViewSlot.factory s) }
    | none => fn

/-- A value stored in one of the app's handler registries: a list of callables
(hook lists), a single callable, or anything else (neither a list nor an
object with a call attribute). -/
inductive DictValue (A V R Err B O : Type) where
  | listVal (l : List (Callable A V R Err B))
  | callableVal (c : Callable A V R Err B)
  | otherVal (o : O)

/-- Embedding of the body of the loop in process_dict for one entry: a list
value is rewritten in place to the list of w-images (same length and order); a
callable value is replaced by its w-image; any other value is left untouched. -/
def processValue {A V R Err B O : Type} (injector : Injector V R Err B) :
    DictValue A V R Err B O → DictValue A V R Err B O
  | DictValue.listVal l => DictValue.listVal (l.map (w injector))
  | DictValue.callableVal c => DictValue.callableVal (w injector c)
  | DictValue.otherVal o => DictValue.otherVal o

/-- Embedding of process_dict: rewrite every entry of the dict by processValue,
keys untouched. The dict is embedded as an association list to keep entry
order observable. -/
def process_dict {A V R Err B O : Type} (injector : Injector V R Err B)
    (d : List (String × DictValue A V R Err B O)) :
    List (String × DictValue A V R Err B O) :=
  d.map (fun kv => (kv.1, processValue injector kv.2))

/-- The Flask application state this adapter touches: the five handler
registries postconfigure_app traverses, plus the before-request and
teardown-request hook registries (modelled semantically, as the actions the
registered hooks perform on the request scope's store; Flask invokes the
former at the start and the latter at the end of every request, the latter
also when the handler raised). -/
structure FlaskApp (K V E A R Err B O : Type) where
  view_functions : List (String × DictValue A V R Err B O)
  before_request_funcs : List (String × DictValue A V R Err B O)
  after_request_funcs : List (String × DictValue A V R Err B O)
  teardown_request_funcs : List (String × DictValue A V R Err B O)
  template_context_processors : List (String × DictValue A V R Err B O)
  before_request_hooks : List (ScopeLocals K V → ScopeLocals K V)
  teardown_hooks : List (Option E → ScopeLocals K V → ScopeLocals K V)

/-- The hook preconfigure_app registers: injector.get(request_scope_class)
fetches the scope singleton (external) and reset() empties its store. -/
def before_request {K V : Type} : ScopeLocals K V → ScopeLocals K V :=
  fun st => RequestScope.reset st

/-- The hook postconfigure_app registers with app.teardown_request: whatever
the exception argument is (None on a clean request, the raised error
otherwise), it resets the scope's store. -/
def tearing_down {K V E : Type} : Option E → ScopeLocals K V → ScopeLocals K V :=
  fun _ st => RequestScope.reset st

/-- Embedding of preconfigure_app: registers the before_request hook. -/
def preconfigure_app {K V E A R Err B O : Type}
    (app : FlaskApp K V E A R Err B O) : FlaskApp K V E A R Err B O :=
  { app with before_request_hooks := app.before_request_hooks ++ [before_request] }

/-- Embedding of postconfigure_app: runs process_dict over the five handler
registries, then registers the tearing_down teardown hook. The final binder
configuration registers bindings with the external injector and is not
modelled. -/
def postconfigure_app {K V E A R Err B O : Type} (injector : Injector V R Err B)
    (app : FlaskApp K V E A R Err B O) : FlaskApp K V E A R Err B O :=
  { app with
    view_functions := process_dict injector app.view_functions
    before_request_funcs := process_dict injector app.before_request_funcs
    after_request_funcs := process_dict injector app.after_request_funcs
    teardown_request_funcs := process_dict injector app.teardown_request_funcs
    template_context_processors := process_dict injector app.template_context_processors
    teardown_hooks := app.teardown_hooks ++ [tearing_down] }

/-- A concrete view class whose initializer carries no bindings metadata. -/
def exClass : ViewClass Nat Nat Nat :=
  { construct := fun _ => 0, init_bindings := none }

/-- A concrete view function for exClass: no bindings attribute, a view_class
attribute holding exClass. -/
def exView : Callable Nat Nat Nat Nat Nat :=
  { run := fun _ _ => Except.ok 2, bindings := none
    view_class := some (ViewSlot.cls exClass), module := "m" }

/-- A concrete callable carrying bindings metadata. -/
def exBound : Callable Nat Nat Nat Nat Nat :=
  { run := fun _ _ => Except.ok 0, bindings := some 0
    view_class := none, module := "m" }

/-- A concrete callable with neither bindings metadata nor a view class. -/
def exPlain : Callable Nat Nat Nat Nat Nat :=
  { run := fun _ _ => Except.ok 1, bindings := none
    view_class := none, module := "m" }

/-- A concrete injector that resolves every bindings metadata to the empty
dict. -/
def exInjector : Injector Nat Nat Nat Nat :=
  { args_to_inject := fun _ _ => Except.ok (fun _ => none)
    create_object := fun _ _ => 0 }

/-- A concrete store caching provider 7 under key 0. -/
def exStore : ScopeLocals Nat Nat :=
  { scope := Function.update (fun _ => none) 0 (some { value := 7 }) }

/-- A concrete context-indexed family whose context 0 holds exStore and whose
other contexts hold empty stores. -/
def exFamily : Nat → ScopeLocals Nat Nat :=
  Function.update (fun _ => { scope := fun _ => none }) 0 exStore

/-- A concrete context-indexed family of empty stores. -/
def exEmptyFamily : Nat → ScopeLocals Nat Nat :=
  fun _ => { scope := fun _ => none }

end FlaskInjector

namespace FlaskInjector

/-- C1: after configure() with no intervening reset, a first get(k, f) invokes
the factory exactly once (counter n becomes n + 1) and caches the resulting
already-resolved provider p; a second get(k, f) returns the identical provider
p, the identical store, and the identical counter (the factory is not invoked
again); the stored entry p satisfies p.get = v, a pure projection that never
recomputes the value. -/
theorem scoped_get_idempotent {K V E : Type} [DecidableEq K]
    (k : K) (f : Nat → Except E V) (n : Nat) (v : V)
    (hf : f n = Except.ok v) :
    ∃ (p : InstanceProvider V) (st1 : ScopeLocals K V),
      RequestScope.get (RequestScope.configure (K := K) (V := V)) n f k
        = (Except.ok p, st1, n + 1) ∧
      RequestScope.get st1 (n + 1) f k = (Except.ok p, st1, n + 1) ∧
      st1.scope k = some p ∧
      p.get = v := by
  refine ⟨{ value := v },
    { scope := Function.update (fun _ => none) k (some { value := v }) }, ?_, ?_, ?_, rfl⟩
  · simp [RequestScope.get, RequestScope.configure, RequestScope.reset, hf]
  · simp [RequestScope.get]
  · simp

/-- Witness for scoped_get_idempotent at K = V = Nat, E = Unit, k = 0,
f = the factory returning its invocation index, n = 0, v = 0. -/
theorem scoped_get_idempotent_witness :
    ∃ (p : InstanceProvider Nat) (st1 : ScopeLocals Nat Nat),
      RequestScope.get (RequestScope.configure (K := Nat) (V := Nat)) 0
          (fun m => (Except.ok m : Except Unit Nat)) 0
        = (Except.ok p, st1, 0 + 1) ∧
      RequestScope.get st1 (0 + 1) (fun m => (Except.ok m : Except Unit Nat)) 0
        = (Except.ok p, st1, 0 + 1) ∧
      st1.scope 0 = some p ∧
      p.get = 0 :=
  scoped_get_idempotent 0 (fun m => (Except.ok m : Except Unit Nat)) 0 0 rfl

/-- C2: reset leaves no entry for any previously cached key k, so a subsequent
get(k, f) invokes the factory again (the counter increments) and returns a
provider freshly built from the factory's new output; in particular whenever
the pre-reset cached provider differs from the fresh one, the returned provider
is not the pre-reset one. -/
theorem reset_isolation {K V E : Type} [DecidableEq K]
    (st : ScopeLocals K V) (k : K) (f : Nat → Except E V) (n : Nat)
    (v : V) (p0 : InstanceProvider V)
    (hf : f n = Except.ok v) (hpre : st.scope k = some p0) (hnew : p0.value ≠ v) :
    (RequestScope.reset st).scope k = none ∧
    RequestScope.get (RequestScope.reset st) n f k
      = (Except.ok { value := v },
         { scope := Function.update (fun _ => none) k (some { value := v }) }, n + 1) ∧
    (RequestScope.get (RequestScope.reset st) n f k).1 ≠ Except.ok p0 := by
  refine ⟨rfl, ?_, ?_⟩
  · simp [RequestScope.get, RequestScope.reset, hf]
  · simp only [RequestScope.get, RequestScope.reset, hf]
    intro h
    exact hnew (congrArg InstanceProvider.value (Except.ok.inj h)).symm

/-- Witness for reset_isolation: key 0 cached as provider 7 before reset, the
factory returns 1 at invocation index 1. -/
theorem reset_isolation_witness :
    (RequestScope.reset
        { scope := Function.update (fun _ => none) 0 (some { value := 7 }) }).scope 0
        = none ∧
    RequestScope.get
        (RequestScope.reset
          (K := Nat) (V := Nat)
          { scope := Function.update (fun _ => none) 0 (some { value := 7 }) })
        1 (fun m => (Except.ok m : Except Unit Nat)) 0
      = (Except.ok { value := 1 },
         { scope := Function.update (fun _ => none) 0 (some { value := 1 }) }, 1 + 1) ∧
    (RequestScope.get
        (RequestScope.reset
          (K := Nat) (V := Nat)
          { scope := Function.update (fun _ => none) 0 (some { value := 7 }) })
        1 (fun m => (Except.ok m : Except Unit Nat)) 0).1
      ≠ Except.ok { value := 7 } :=
  reset_isolation
    { scope := Function.update (fun _ => none) 0 (some { value := 7 }) }
    0 (fun m => (Except.ok m : Except Unit Nat)) 1 1 { value := 7 }
    rfl (by simp) (by decide)

/-- C5: on an uncached key, a factory that raises has its exception propagate
unchanged while the store is returned exactly as it was (so still no entry for
k); and lookup of a cached key never fails: it returns the cached provider for
every factory, without invoking it. -/
theorem get_error_propagation {K V E : Type} [DecidableEq K]
    (st : ScopeLocals K V) (k : K) (f : Nat → Except E V) (n : Nat) (e : E)
    (st' : ScopeLocals K V) (k' : K) (p : InstanceProvider V)
    (f' : Nat → Except E V) (n' : Nat)
    (hmiss : st.scope k = none) (hf : f n = Except.error e)
    (hhit : st'.scope k' = some p) :
    RequestScope.get st n f k = (Except.error e, st, n + 1) ∧
    (RequestScope.get st n f k).2.1.scope k = none ∧
    RequestScope.get st' n' f' k' = (Except.ok p, st', n') := by
  refine ⟨?_, ?_, ?_⟩
  · simp [RequestScope.get, hmiss, hf]
  · simp [RequestScope.get, hmiss, hf]
  · simp [RequestScope.get, hhit]

/-- Witness for get_error_propagation: empty store, always-raising factory,
and a second store holding provider 5 under key 2 with the same factory. -/
theorem get_error_propagation_witness :
    RequestScope.get (K := Nat) (V := Nat) { scope := fun _ => none } 0
        (fun _ => (Except.error 9 : Except Nat Nat)) 0
      = (Except.error 9, { scope := fun _ => none }, 0 + 1) ∧
    (RequestScope.get (K := Nat) (V := Nat) { scope := fun _ => none } 0
        (fun _ => (Except.error 9 : Except Nat Nat)) 0).2.1.scope 0 = none ∧
    RequestScope.get
        (K := Nat) (V := Nat)
        { scope := Function.update (fun _ => none) 2 (some { value := 5 }) } 3
        (fun _ => (Except.error 9 : Except Nat Nat)) 2
      = (Except.ok { value := 5 },
         { scope := Function.update (fun _ => none) 2 (some { value := 5 }) }, 3) :=
  get_error_propagation { scope := fun _ => none } 0
    (fun _ => (Except.error 9 : Except Nat Nat)) 0 9
    { scope := Function.update (fun _ => none) 2 (some { value := 5 }) } 2
    { value := 5 } (fun _ => (Except.error 9 : Except Nat Nat)) 3
    rfl rfl (by simp)

/-- C3: when resolution succeeds, the wrapper produced by wrap_fun invokes the
original function on the unchanged positional arguments and the merge of the
resolved values with the caller keywords, returning its result unchanged; on
any name the caller supplied, the caller's value is the one in the merge, and
on any name the caller did not supply, the resolved value is used. -/
theorem wrap_fun_kwargs_precedence {A V R Err B : Type}
    (fn : Callable A V R Err B) (inj : Injector V R Err B)
    (injections : String → Option V) (args : List A)
    (kwargs : String → Option V) (name other : String) (v0 : V)
    (hres : inj.args_to_inject fn.bindings fn.module = Except.ok injections)
    (hcol : kwargs name = some v0) (habsent : kwargs other = none) :
    (wrap_fun fn inj).run args kwargs = fn.run args (dictUpdate injections kwargs) ∧
    dictUpdate injections kwargs name = some v0 ∧
    dictUpdate injections kwargs other = injections other := by
  refine ⟨?_, ?_, ?_⟩
  · simp [wrap_fun, hres]
  · simp [dictUpdate, hcol]
  · simp [dictUpdate, habsent]

/-- Witness for wrap_fun_kwargs_precedence: exBound under an injector that
resolves the names x and y, called with a caller-supplied x. -/
theorem wrap_fun_kwargs_precedence_witness :
    (wrap_fun exBound
        { args_to_inject := fun _ _ =>
            Except.ok (fun s => if s = "x" then some 1 else if s = "y" then some 2 else none)
          create_object := fun _ _ => 0 }).run [3]
        (fun s => if s = "x" then some 5 else none)
      = exBound.run [3]
          (dictUpdate
            (fun s => if s = "x" then some 1 else if s = "y" then some 2 else none)
            (fun s => if s = "x" then some 5 else none)) ∧
    dictUpdate (fun s => if s = "x" then some 1 else if s = "y" then some 2 else none)
        (fun s => if s = "x" then some 5 else none) "x" = some 5 ∧
    dictUpdate (fun s => if s = "x" then some 1 else if s = "y" then some 2 else none)
        (fun s => if s = "x" then some 5 else none) "y"
      = (fun s => if s = "x" then some 1 else if s = "y" then some 2 else none) "y" :=
  wrap_fun_kwargs_precedence exBound
    { args_to_inject := fun _ _ =>
        Except.ok (fun s => if s = "x" then some 1 else if s = "y" then some 2 else none)
      create_object := fun _ _ => 0 }
    (fun s => if s = "x" then some 1 else if s = "y" then some 2 else none)
    [3] (fun s => if s = "x" then some 5 else none) "x" "y" 5
    rfl (by decide) (by decide)

/-- C4: processing a list entry rewrites it to the elementwise w-image: the
length is unchanged, the entry at every index i is the w-image of the original
entry at the same index i, every callable carrying bindings metadata becomes
its wrapped form, and every callable without bindings metadata and without a
view class is returned identically. -/
theorem hook_list_order_preserved {A V R Err B O : Type}
    (inj : Injector V R Err B) (l : List (Callable A V R Err B))
    (fn g : Callable A V R Err B) (b : B)
    (hfb : fn.bindings = some b) (hg : g.bindings = none) (hgv : g.view_class = none) :
    processValue inj (DictValue.listVal (O := O) l)
      = DictValue.listVal (l.map (FlaskInjector.w inj)) ∧
    (l.map (FlaskInjector.w inj)).length = l.length ∧
    (∀ i : Nat, (l.map (FlaskInjector.w inj))[i]? = (l[i]?).map (FlaskInjector.w inj)) ∧
    FlaskInjector.w inj fn = wrap_fun fn inj ∧
    FlaskInjector.w inj g = g := by
  refine ⟨rfl, List.length_map l _, fun i => List.getElem?_map .., ?_, ?_⟩
  · simp [FlaskInjector.w, hfb]
  · simp [FlaskInjector.w, hg, hgv]

/-- Witness for hook_list_order_preserved on the list [exBound, exPlain,
exBound]: the spec's [h1, h2, h3] with metadata on h1 and h3. -/
theorem hook_list_order_preserved_witness :
    processValue exInjector (DictValue.listVal (O := Nat) [exBound, exPlain, exBound])
      = DictValue.listVal ([exBound, exPlain, exBound].map (FlaskInjector.w exInjector)) ∧
    ([exBound, exPlain, exBound].map (FlaskInjector.w exInjector)).length
      = [exBound, exPlain, exBound].length ∧
    (∀ i : Nat, ([exBound, exPlain, exBound].map (FlaskInjector.w exInjector))[i]?
      = ([exBound, exPlain, exBound][i]?).map (FlaskInjector.w exInjector)) ∧
    FlaskInjector.w exInjector exBound = wrap_fun exBound exInjector ∧
    FlaskInjector.w exInjector exPlain = exPlain :=
  hook_list_order_preserved exInjector [exBound, exPlain, exBound]
    exBound exPlain 0 rfl rfl rfl

/-- C6: configure initializes the scope by resetting fresh locals;
preconfigure_app registers (appends) the before_request hook, whose action on
any store state is reset; postconfigure_app registers the tearing_down
teardown hook, whose action is reset for every exception argument, including
when the handler raised an error; and reset always leaves a store with no
entries. -/
theorem reset_lifecycle_points {K V E A R Err B O : Type}
    (app : FlaskApp K V E A R Err B O) (injector : Injector V R Err B) :
    RequestScope.configure (K := K) (V := V)
      = RequestScope.reset RequestScope.freshLocals ∧
    (preconfigure_app app).before_request_hooks
      = app.before_request_hooks ++ [before_request] ∧
    (∀ st : ScopeLocals K V, before_request st = RequestScope.reset st) ∧
    (postconfigure_app injector app).teardown_hooks
      = app.teardown_hooks ++ [tearing_down] ∧
    (∀ (exc : Option E) (st : ScopeLocals K V),
      tearing_down exc st = RequestScope.reset st) ∧
    (∀ (st : ScopeLocals K V) (k : K), (RequestScope.reset st).scope k = none) :=
  ⟨rfl, rfl, fun _ => rfl, rfl, fun _ _ => rfl, fun _ _ => rfl⟩

/-- C7: under an injector whose resolution always raises e, setup still
completes as a pure rewriting of the registries (process_dict and w only probe
the presence of the bindings attribute and never call args_to_inject), and the
failure surfaces only when the wrapped handler is first invoked, as the
unchanged exception e. -/
theorem no_eager_resolution {A V R Err B O : Type}
    (e : Err) (co : ViewSlot V R B → (String → Option V) → R)
    (d : List (String × DictValue A V R Err B O))
    (fn : Callable A V R Err B) (b : B)
    (args : List A) (kwargs : String → Option V)
    (hb : fn.bindings = some b) :
    process_dict { args_to_inject := fun _ _ => Except.error e, create_object := co } d
      = d.map (fun kv =>
          (kv.1, processValue
            { args_to_inject := fun _ _ => Except.error e, create_object := co } kv.2)) ∧
    FlaskInjector.w { args_to_inject := fun _ _ => Except.error e, create_object := co } fn
      = wrap_fun fn { args_to_inject := fun _ _ => Except.error e, create_object := co } ∧
    (FlaskInjector.w { args_to_inject := fun _ _ => Except.error e, create_object := co }
        fn).run args kwargs
      = Except.error e := by
  refine ⟨rfl, ?_, ?_⟩
  · simp [FlaskInjector.w, hb]
  · simp [FlaskInjector.w, hb, wrap_fun]

/-- Witness for no_eager_resolution: exBound under the always-failing
injector, invoked on concrete arguments. -/
theorem no_eager_resolution_witness :
    process_dict (A := Nat) (O := Nat)
        { args_to_inject := fun _ _ => Except.error 4, create_object := fun _ _ => 0 } []
      = ([] : List (String × DictValue Nat Nat Nat Nat Nat Nat)).map (fun kv =>
          (kv.1, processValue
            { args_to_inject := fun _ _ => Except.error 4
              create_object := fun _ _ => 0 } kv.2)) ∧
    FlaskInjector.w
        { args_to_inject := fun _ _ => Except.error 4, create_object := fun _ _ => 0 } exBound
      = wrap_fun exBound
          { args_to_inject := fun _ _ => Except.error 4, create_object := fun _ _ => 0 } ∧
    (FlaskInjector.w
        { args_to_inject := fun _ _ => Except.error 4, create_object := fun _ _ => 0 }
        exBound).run [3] (fun _ => none)
      = Except.error 4 :=
  no_eager_resolution 4 (fun _ _ => 0) [] exBound 0 [3] (fun _ => none) rfl

/-- C8 counterexample: exView's class carries no bindings metadata on its
initializer, yet w still replaces its view_class attribute, so a view factory
whose class carries no metadata is not left untouched. -/
theorem view_class_replacement_cex :
    exClass.init_bindings = none ∧
    (FlaskInjector.w exInjector exView).view_class ≠ exView.view_class := by
  refine ⟨rfl, ?_⟩
  simp [FlaskInjector.w, exView]

/-- C8 amended: for every registered callable with a view_class attribute and
no bindings attribute — regardless of whether the class's initializer carries
bindings metadata — postconfigure_app's w replaces the view_class attribute
with the factory closure, which when called asks the injector to construct the
stored class merging the call-time keyword values; the callable itself (its
behavior and other attributes) is kept. -/
theorem view_class_replacement {A V R Err B : Type}
    (inj : Injector V R Err B) (fn : Callable A V R Err B)
    (s : ViewSlot V R B) (kwargs : String → Option V)
    (hb : fn.bindings = none) (hv : fn.view_class = some s) :
    (FlaskInjector.w inj fn).view_class = some (ViewSlot.factory s) ∧
    ViewSlot.call inj (ViewSlot.factory s) kwargs = inj.create_object s kwargs ∧
    (FlaskInjector.w inj fn).run = fn.run ∧
    (FlaskInjector.w inj fn).bindings = fn.bindings := by
  refine ⟨?_, rfl, ?_, ?_⟩ <;> simp [FlaskInjector.w, hb, hv]

/-- Witness for view_class_replacement: exView (whose class carries no
metadata) under exInjector. -/
theorem view_class_replacement_witness :
    (FlaskInjector.w exInjector exView).view_class
      = some (ViewSlot.factory (ViewSlot.cls exClass)) ∧
    ViewSlot.call exInjector (ViewSlot.factory (ViewSlot.cls exClass)) (fun _ => none)
      = exInjector.create_object (ViewSlot.cls exClass) (fun _ => none) ∧
    (FlaskInjector.w exInjector exView).run = exView.run ∧
    (FlaskInjector.w exInjector exView).bindings = exView.bindings :=
  view_class_replacement exInjector exView (ViewSlot.cls exClass) (fun _ => none) rfl rfl

/-- C9: a get executed in context c leaves every other context's store exactly
as it was, and both its result and the resulting store of c depend only on the
store of c itself — so an instance cached in one request context is never
observed by a get in another context. -/
theorem cross_request_isolation {Ctx K V E : Type} [DecidableEq Ctx] [DecidableEq K]
    (L L' : Ctx → ScopeLocals K V) (c c' : Ctx) (n : Nat)
    (f : Nat → Except E V) (k : K)
    (hne : c' ≠ c) (hsame : L c = L' c) :
    (RequestScope.getCtx L c n f k).2.1 c' = L c' ∧
    (RequestScope.getCtx L c n f k).1 = (RequestScope.getCtx L' c n f k).1 ∧
    (RequestScope.getCtx L c n f k).2.1 c = (RequestScope.getCtx L' c n f k).2.1 c := by
  refine ⟨?_, ?_, ?_⟩
  · simp [RequestScope.getCtx]
    exact Function.update_noteq hne _ _
  · simp [RequestScope.getCtx, hsame]
  · simp [RequestScope.getCtx, hsame]

/-- Witness for cross_request_isolation: a get in context 1 over the family
with a cached entry only in context 0, compared against the all-empty family. -/
theorem cross_request_isolation_witness :
    (RequestScope.getCtx exFamily 1 0 (fun m => (Except.ok m : Except Unit Nat)) 0).2.1 0
      = exFamily 0 ∧
    (RequestScope.getCtx exFamily 1 0 (fun m => (Except.ok m : Except Unit Nat)) 0).1
      = (RequestScope.getCtx exEmptyFamily 1 0
          (fun m => (Except.ok m : Except Unit Nat)) 0).1 ∧
    (RequestScope.getCtx exFamily 1 0 (fun m => (Except.ok m : Except Unit Nat)) 0).2.1 1
      = (RequestScope.getCtx exEmptyFamily 1 0
          (fun m => (Except.ok m : Except Unit Nat)) 0).2.1 1 :=
  cross_request_isolation exFamily exEmptyFamily 1 0 0
    (fun m => (Except.ok m : Except Unit Nat)) 0
    (by decide) (by simp [exFamily, exEmptyFamily, Function.update])

/-- C10: process_dict rewrites every entry pointwise by processValue, which
touches only list values (mapped through w) and callable values (replaced by
their w-image) and returns every other value identically. -/
theorem process_dict_frame {A V R Err B O : Type}
    (inj : Injector V R Err B) (d : List (String × DictValue A V R Err B O)) (o : O) :
    processValue inj (DictValue.otherVal o : DictValue A V R Err B O)
      = DictValue.otherVal o ∧
    (∀ i : Nat, (process_dict inj d)[i]?
      = (d[i]?).map (fun kv => (kv.1, processValue inj kv.2))) ∧
    (∀ l : List (Callable A V R Err B),
      processValue inj (DictValue.listVal (O := O) l)
        = DictValue.listVal (l.map (FlaskInjector.w inj))) ∧
    (∀ c : Callable A V R Err B,
      processValue inj (DictValue.callableVal (O := O) c)
        = DictValue.callableVal (FlaskInjector.w inj c)) :=
  ⟨rfl, fun i => List.getElem?_map .., fun _ => rfl, fun _ => rfl⟩

end FlaskInjector
